import Mathlib

/-!
Shallow embedding of the battery-cell domain logic of
`cell_charge_discharge.py` (a Streamlit dashboard).

Python floats are modelled as exact rationals (`ℚ`); the decimal
literals of the source are taken at face value.  The UI strings of the
warnings are abstracted into a message tag carrying the raw numeric
payloads (the `:.2f` display formatting is presentation only).
-/

namespace CellChargeDischarge

/-- The three cell chemistries of the `CELL_SPECS` dictionary. -/
inductive CellType
  | LFP
  | NMC
  | LTO
  deriving DecidableEq, Repr

/-- One row of `CELL_SPECS`: nominal / min / max voltage (the display
color string is irrelevant to the logic and omitted). -/
structure CellSpec where
  nominal : ℚ
  min : ℚ
  max : ℚ
  deriving DecidableEq, Repr

/-- Embedding of the `CELL_SPECS` dictionary
(`{"LFP": {...}, "NMC": {...}, "LTO": {...}}`). -/
def CELL_SPECS : CellType → CellSpec
  | .LFP => ⟨3.2, 2.8, 3.6⟩
  | .NMC => ⟨3.6, 3.0, 4.2⟩
  | .LTO => ⟨2.4, 1.8, 2.8⟩

/-- Warning severity: the `"🚨 CRITICAL"` / `"⚠️ WARNING"` tag of
`get_safety_warnings`. -/
inductive Severity
  | CRITICAL
  | WARNING
  deriving DecidableEq, Repr

/-- The message part of a warning, carrying the raw numbers that the
source interpolates into the f-string. -/
inductive WarningMsg
  | Overvoltage (v vmax : ℚ)
  | Undervoltage (v vmin : ℚ)
  | HighCurrent (i : ℚ)
  | Overheating (t : ℚ)
  | LowTemperature (t : ℚ)
  deriving DecidableEq, Repr

/-- A warning as appended by `get_safety_warnings`: a
(severity, message) pair. -/
def Warning : Type := Severity × WarningMsg

instance : DecidableEq Warning := instDecidableEqProd

/-- The voltage block of `get_safety_warnings`:
`if voltage > spec["max"]: append CRITICAL overvoltage
 elif voltage < spec["min"]: append WARNING undervoltage`. -/
def voltage_warnings (voltage : ℚ) (cell_type : CellType) : List Warning :=
  if voltage > (CELL_SPECS cell_type).max then
    [(Severity.CRITICAL, WarningMsg.Overvoltage voltage (CELL_SPECS cell_type).max)]
  else if voltage < (CELL_SPECS cell_type).min then
    [(Severity.WARNING, WarningMsg.Undervoltage voltage (CELL_SPECS cell_type).min)]
  else []

/-- The current block of `get_safety_warnings`:
`if abs(current) > 10: append WARNING high current`. -/
def current_warnings (current : ℚ) : List Warning :=
  if |current| > 10 then
    [(Severity.WARNING, WarningMsg.HighCurrent |current|)]
  else []

/-- The temperature block of `get_safety_warnings`:
`if temperature > 45: append CRITICAL overheating
 elif temperature < 0: append WARNING low temperature`. -/
def temperature_warnings (temperature : ℚ) : List Warning :=
  if temperature > 45 then
    [(Severity.CRITICAL, WarningMsg.Overheating temperature)]
  else if temperature < 0 then
    [(Severity.WARNING, WarningMsg.LowTemperature temperature)]
  else []

/-- Embedding of `get_safety_warnings(voltage, current, temperature,
cell_type)`: the source appends to one list in three sequential blocks
(voltage, then current, then temperature), rendered here as the
concatenation of the three blocks in source order. -/
def get_safety_warnings (voltage current temperature : ℚ)
    (cell_type : CellType) : List Warning :=
  voltage_warnings voltage cell_type ++
    current_warnings current ++
      temperature_warnings temperature

/-- Embedding of `calculate_charge_percentage(voltage, cell_type)`
(the source binds `spec = CELL_SPECS[cell_type]`; here the lookup is
inlined at each use). -/
def calculate_charge_percentage (voltage : ℚ) (cell_type : CellType) : ℚ :=
  if voltage ≤ (CELL_SPECS cell_type).min then 0
  else if voltage ≥ (CELL_SPECS cell_type).max then 100
  else ((voltage - (CELL_SPECS cell_type).min) /
    ((CELL_SPECS cell_type).max - (CELL_SPECS cell_type).min)) * 100

/-- Embedding of the derived safety score computed in the Analysis page:
`safety_score = max(0, 100 - len(warnings) * 25)`. -/
def safety_score (warning_count : ℕ) : ℤ :=
  max 0 (100 - (warning_count : ℤ) * 25)

/-- The four values of `st.session_state.charging_status`. -/
inductive ChargingStatus
  | Charging
  | Discharging
  | Paused
  | Idle
  deriving DecidableEq, Repr

/-- The per-cell baseline as stored in `st.session_state.cells_data`:
a cell id, a chemistry and baseline voltage / current / temperature
(the `time` and stored `capacity` entries are unused by the
synthesizer). -/
structure CellConfig where
  cell_id : String
  cell_type : CellType
  voltage : ℚ
  current : ℚ
  temperature : ℚ
  deriving DecidableEq, Repr

/-- One dict of the list returned by `generate_real_time_data`
(the wall-clock `timestamp` field is omitted from the embedding). -/
structure TelemetrySample where
  cell_id : String
  cell_type : CellType
  voltage : ℚ
  current : ℚ
  temperature : ℚ
  capacity : ℚ
  deriving DecidableEq, Repr

/-- The voltage computed by the status branches of
`generate_real_time_data`, before the `max(0, voltage)` clamp; `u1` is
the value drawn by the branch's `random.uniform` call for voltage. -/
def raw_voltage (cfg : CellConfig) (status : ChargingStatus) (u1 : ℚ) : ℚ :=
  match status with
  | .Charging => cfg.voltage + u1
  | .Discharging => cfg.voltage - u1
  | .Paused => cfg.voltage + u1
  | .Idle => cfg.voltage + u1

/-- The current computed by the status branches of
`generate_real_time_data`; `u2` is the draw used by the branch for
current (ignored in Idle, where `current = 0.0` with no draw). -/
def sample_current (cfg : CellConfig) (status : ChargingStatus) (u2 : ℚ) : ℚ :=
  match status with
  | .Charging => |cfg.current| + u2
  | .Discharging => -|cfg.current| + u2
  | .Paused => u2
  | .Idle => 0

/-- The temperature computed by the status branches of
`generate_real_time_data`; `u3` is the branch's temperature draw. -/
def raw_temperature (cfg : CellConfig) (status : ChargingStatus) (u3 : ℚ) : ℚ :=
  match status with
  | .Charging => cfg.temperature + u3
  | .Discharging => cfg.temperature + u3
  | .Paused => cfg.temperature + u3
  | .Idle => cfg.temperature + u3

/-- The ranges of the `random.uniform` calls of each branch of
`generate_real_time_data`.  `u2` is unconstrained in Idle mode, where
the source draws no current perturbation. -/
def draws_in_range (status : ChargingStatus) (u1 u2 u3 : ℚ) : Prop :=
  match status with
  | .Charging =>
      (5/100 ≤ u1 ∧ u1 ≤ 15/100) ∧ (-(1/2) ≤ u2 ∧ u2 ≤ 1/2) ∧ (2 ≤ u3 ∧ u3 ≤ 8)
  | .Discharging =>
      (5/100 ≤ u1 ∧ u1 ≤ 15/100) ∧ (-(1/2) ≤ u2 ∧ u2 ≤ 1/2) ∧ (1 ≤ u3 ∧ u3 ≤ 5)
  | .Paused =>
      (-(2/100) ≤ u1 ∧ u1 ≤ 2/100) ∧ (-(1/10) ≤ u2 ∧ u2 ≤ 1/10) ∧ (-1 ≤ u3 ∧ u3 ≤ 1)
  | .Idle =>
      (-(1/100) ≤ u1 ∧ u1 ≤ 1/100) ∧ True ∧ (-(1/2) ≤ u3 ∧ u3 ≤ 1/2)

instance (status : ChargingStatus) (u1 u2 u3 : ℚ) :
    Decidable (draws_in_range status u1 u2 u3) := by
  unfold draws_in_range
  cases status <;> infer_instance

/-- The sample dict appended by `generate_real_time_data` for one cell:
`voltage` is clamped with `max(0, voltage)`, and `capacity` is
`abs(voltage * current) if current != 0 else 0` — computed with the
branch voltage BEFORE the clamp. -/
def synthesize_sample (cfg : CellConfig) (status : ChargingStatus)
    (u1 u2 u3 : ℚ) : TelemetrySample :=
  let voltage := raw_voltage cfg status u1
  let current := sample_current cfg status u2
  let temperature := raw_temperature cfg status u3
  { cell_id := cfg.cell_id
    cell_type := cfg.cell_type
    voltage := max 0 voltage
    current := current
    temperature := temperature
    capacity := if current ≠ 0 then |voltage * current| else 0 }

/-- Python's `lst[-cap:]` on a list, for `cap ≥ 0`: the last `cap`
elements, except that `lst[-0:]` is the whole list. -/
def py_slice_last {α : Type} (cap : ℕ) (l : List α) : List α :=
  if cap = 0 then l else l.drop (l.length - cap)

/-- One tick of the rolling real-time buffer in the Control Panel page:
`real_time_data.extend(current_data)` followed by
`if len(...) > 60 * ncells: real_time_data = real_time_data[-60*ncells:]`. -/
def tick_buffer {α : Type} (ncells : ℕ) (buf new : List α) : List α :=
  if (buf ++ new).length > 60 * ncells then
    py_slice_last (60 * ncells) (buf ++ new)
  else buf ++ new

/-- Classifier: is this warning the overvoltage one? -/
def is_overvoltage (w : Warning) : Bool :=
  match w.2 with
  | .Overvoltage _ _ => true
  | _ => false

/-- Classifier: is this warning the undervoltage one? -/
def is_undervoltage (w : Warning) : Bool :=
  match w.2 with
  | .Undervoltage _ _ => true
  | _ => false

/-- Classifier: is this warning the overheating one? -/
def is_overheating (w : Warning) : Bool :=
  match w.2 with
  | .Overheating _ => true
  | _ => false

/-- Classifier: is this warning the low-temperature one? -/
def is_low_temperature (w : Warning) : Bool :=
  match w.2 with
  | .LowTemperature _ => true
  | _ => false

/-- Classifier: does this warning belong to the voltage dimension? -/
def is_voltage_warning (w : Warning) : Bool :=
  is_overvoltage w || is_undervoltage w

/-- Classifier: does this warning belong to the current dimension? -/
def is_current_warning (w : Warning) : Bool :=
  match w.2 with
  | .HighCurrent _ => true
  | _ => false

/-- Classifier: does this warning belong to the temperature dimension? -/
def is_temperature_warning (w : Warning) : Bool :=
  is_overheating w || is_low_temperature w

/-- Every chemistry of the table has `min < max`. -/
lemma cellSpec_min_lt_max (c : CellType) :
    (CELL_SPECS c).min < (CELL_SPECS c).max := by
  cases c <;> norm_num [CELL_SPECS]

/-- The charge percentage is always in `[0, 100]`. -/
lemma charge_percentage_mem_Icc (v : ℚ) (c : CellType) :
    0 ≤ calculate_charge_percentage v c ∧ calculate_charge_percentage v c ≤ 100 := by
  have hlt := cellSpec_min_lt_max c
  unfold calculate_charge_percentage
  split_ifs with h1 h2
  · norm_num
  · norm_num
  · push_neg at h1 h2
    have hden : (0 : ℚ) < (CELL_SPECS c).max - (CELL_SPECS c).min := by linarith
    constructor
    · exact mul_nonneg (div_nonneg (by linarith) (by linarith)) (by norm_num)
    · rw [div_mul_eq_mul_div, div_le_iff₀ hden]
      nlinarith

/-- Below or at the minimum the estimator returns 0. -/
lemma charge_zero_of_le {v : ℚ} (c : CellType)
    (h : v ≤ (CELL_SPECS c).min) : calculate_charge_percentage v c = 0 := by
  simp [calculate_charge_percentage, h]

/-- At or above the maximum the estimator returns 100. -/
lemma charge_hundred_of_ge {v : ℚ} (c : CellType)
    (h : (CELL_SPECS c).max ≤ v) : calculate_charge_percentage v c = 100 := by
  have hlt := cellSpec_min_lt_max c
  unfold calculate_charge_percentage
  split_ifs with h1
  · linarith
  · rfl

/-- Strictly between the bounds the estimator is the linear
interpolation of the source. -/
lemma charge_interp_of_between {v : ℚ} (c : CellType)
    (h1 : (CELL_SPECS c).min < v) (h2 : v < (CELL_SPECS c).max) :
    calculate_charge_percentage v c =
      (v - (CELL_SPECS c).min) /
        ((CELL_SPECS c).max - (CELL_SPECS c).min) * 100 := by
  unfold calculate_charge_percentage
  split_ifs with g1 g2
  · linarith
  · linarith
  · rfl

/-- The voltage block is empty iff the voltage is within bounds. -/
lemma voltage_warnings_eq_nil_iff (v : ℚ) (c : CellType) :
    voltage_warnings v c = [] ↔
      (CELL_SPECS c).min ≤ v ∧ v ≤ (CELL_SPECS c).max := by
  unfold voltage_warnings
  split_ifs with h1 h2
  · exact iff_of_false (by simp) (by rintro ⟨_, hM⟩; linarith)
  · exact iff_of_false (by simp) (by rintro ⟨hm, _⟩; linarith)
  · push_neg at h1 h2
    exact iff_of_true rfl ⟨h2, h1⟩

/-- The current block is empty iff `|i| ≤ 10`. -/
lemma current_warnings_eq_nil_iff (i : ℚ) :
    current_warnings i = [] ↔ |i| ≤ 10 := by
  unfold current_warnings
  split_ifs with h1
  · exact iff_of_false (by simp) (by intro h; linarith)
  · push_neg at h1
    exact iff_of_true rfl h1

/-- After one tick the buffer holds at most `60 × ncells` entries
(for a configured bank, `ncells > 0`, so the `lst[-0:]` Python edge
case of `py_slice_last` is unreachable). -/
lemma tick_buffer_length_le {α : Type} (ncells : ℕ) (h : 0 < ncells)
    (buf new : List α) :
    (tick_buffer ncells buf new).length ≤ 60 * ncells := by
  unfold tick_buffer py_slice_last
  split_ifs with h1 h2
  · omega
  · simp only [List.length_drop]
    omega
  · omega

/-- One tick keeps a suffix of the appended buffer: eviction removes
oldest entries first. -/
lemma tick_buffer_suffix {α : Type} (ncells : ℕ) (buf new : List α) :
    List.IsSuffix (tick_buffer ncells buf new) (buf ++ new) := by
  unfold tick_buffer py_slice_last
  split_ifs with h1 h2
  · exact List.suffix_refl _
  · exact ⟨(buf ++ new).take ((buf ++ new).length - 60 * ncells),
      List.take_append_drop _ _⟩
  · exact List.suffix_refl _

/-- The temperature block is empty iff `0 ≤ t ≤ 45`. -/
lemma temperature_warnings_eq_nil_iff (t : ℚ) :
    temperature_warnings t = [] ↔ 0 ≤ t ∧ t ≤ 45 := by
  unfold temperature_warnings
  split_ifs with h1 h2
  · exact iff_of_false (by simp) (by rintro ⟨_, hM⟩; linarith)
  · exact iff_of_false (by simp) (by rintro ⟨hm, _⟩; linarith)
  · push_neg at h1 h2
    exact iff_of_true rfl ⟨h2, h1⟩

end CellChargeDischarge

namespace CellChargeDischarge

/-- C1: `get_safety_warnings` is total (in the embedding, a function
returning a list for every rational input) and returns the empty list
iff `min ≤ v ≤ max`, `|i| ≤ 10` and `0 ≤ t ≤ 45`; in particular an
out-of-range input such as a negative temperature yields a warning,
never an error. -/
theorem safety_warnings_empty_iff (v i t : ℚ) (c : CellType) :
    get_safety_warnings v i t c = [] ↔
      ((CELL_SPECS c).min ≤ v ∧ v ≤ (CELL_SPECS c).max ∧
        |i| ≤ 10 ∧ 0 ≤ t ∧ t ≤ 45) := by
  unfold get_safety_warnings
  rw [List.append_eq_nil, List.append_eq_nil,
    voltage_warnings_eq_nil_iff, current_warnings_eq_nil_iff,
    temperature_warnings_eq_nil_iff]
  tauto

/-- C2: the charge estimator returns 0 at or below `min`, 100 at or
above `max`, the linear interpolation strictly between, always lies in
`[0, 100]`, and hits exactly 0 at `min` and 100 at `max`. -/
theorem charge_percentage_spec (v : ℚ) (c : CellType) :
    (v ≤ (CELL_SPECS c).min → calculate_charge_percentage v c = 0) ∧
    ((CELL_SPECS c).max ≤ v → calculate_charge_percentage v c = 100) ∧
    ((CELL_SPECS c).min < v → v < (CELL_SPECS c).max →
      calculate_charge_percentage v c =
        (v - (CELL_SPECS c).min) /
          ((CELL_SPECS c).max - (CELL_SPECS c).min) * 100) ∧
    (0 ≤ calculate_charge_percentage v c ∧
      calculate_charge_percentage v c ≤ 100) ∧
    calculate_charge_percentage (CELL_SPECS c).min c = 0 ∧
    calculate_charge_percentage (CELL_SPECS c).max c = 100 := by
  exact ⟨fun h => charge_zero_of_le c h,
    fun h => charge_hundred_of_ge c h,
    fun h1 h2 => charge_interp_of_between c h1 h2,
    charge_percentage_mem_Icc v c,
    charge_zero_of_le c le_rfl,
    charge_hundred_of_ge c le_rfl⟩

/-- Witness for C2 at `v = 3.2`, chemistry LFP. -/
theorem charge_percentage_spec_witness :
    calculate_charge_percentage 3.2 CellType.LFP =
      (3.2 - 2.8) / (3.6 - 2.8) * 100 := by
  have h := (charge_percentage_spec 3.2 CellType.LFP).2.2.1
  have e1 : (CELL_SPECS CellType.LFP).min = 2.8 := rfl
  have e2 : (CELL_SPECS CellType.LFP).max = 3.6 := rfl
  rw [e1, e2] at h
  exact h (by norm_num) (by norm_num)

/-- C3: the derived safety score is `max(0, 100 - 25 n)`: each warning
costs exactly 25 points, floored at 0, with `safety_score 0 = 100`,
`safety_score 3 = 25` and `safety_score 5 = 0`. -/
theorem safety_score_formula :
    (∀ n : ℕ, safety_score n = max 0 (100 - 25 * (n : ℤ))) ∧
    (∀ n : ℕ, safety_score (n + 1) = max 0 (safety_score n - 25)) ∧
    safety_score 0 = 100 ∧ safety_score 3 = 25 ∧ safety_score 5 = 0 := by
  refine ⟨fun n => by unfold safety_score; ring_nf, fun n => ?_, rfl, rfl, rfl⟩
  unfold safety_score
  push_cast
  omega

/-- C6: the voltage of every emitted sample is nonnegative, for every
baseline, mode and perturbation draw (even when the perturbed baseline
would be negative). -/
theorem sample_voltage_nonneg (cfg : CellConfig) (status : ChargingStatus)
    (u1 u2 u3 : ℚ) : 0 ≤ (synthesize_sample cfg status u1 u2 u3).voltage :=
  le_max_left 0 (raw_voltage cfg status u1)

/-- C7: in Idle mode the emitted current is exactly 0, for every
baseline (in particular baseline current 2.0) and every draw. -/
theorem idle_sample_current_zero (cfg : CellConfig) (u1 u2 u3 : ℚ) :
    (synthesize_sample cfg ChargingStatus.Idle u1 u2 u3).current = 0 := rfl

/-- C9: for a fixed chemistry the charge estimator is monotonically
non-decreasing in the voltage. -/
theorem charge_percentage_monotone (c : CellType) (v1 v2 : ℚ)
    (h : v1 ≤ v2) :
    calculate_charge_percentage v1 c ≤ calculate_charge_percentage v2 c := by
  have hlt := cellSpec_min_lt_max c
  rcases le_or_lt v1 (CELL_SPECS c).min with h1 | h1
  · rw [charge_zero_of_le c h1]
    exact (charge_percentage_mem_Icc v2 c).1
  · rcases le_or_lt (CELL_SPECS c).max v1 with h2 | h2
    · rw [charge_hundred_of_ge c h2, charge_hundred_of_ge c (le_trans h2 h)]
    · rcases le_or_lt (CELL_SPECS c).max v2 with h3 | h3
      · rw [charge_hundred_of_ge c h3]
        exact (charge_percentage_mem_Icc v1 c).2
      · rw [charge_interp_of_between c h1 h2,
          charge_interp_of_between c (lt_of_lt_of_le h1 h) h3]
        have hden : (0 : ℚ) < (CELL_SPECS c).max - (CELL_SPECS c).min := by
          linarith
        have hq := (div_le_div_iff_of_pos_right hden).mpr
          (by linarith : v1 - (CELL_SPECS c).min ≤ v2 - (CELL_SPECS c).min)
        nlinarith

/-- Witness for C9 at LFP, `v1 = 3.0 ≤ v2 = 3.3`. -/
theorem charge_percentage_monotone_witness :
    calculate_charge_percentage 3.0 CellType.LFP ≤
      calculate_charge_percentage 3.3 CellType.LFP :=
  charge_percentage_monotone CellType.LFP 3.0 3.3 (by norm_num)

/-- C10: one reading yields at most 3 warnings (one per dimension), so
the single-sample safety score is at least 25 and is one of
25, 50, 75, 100: the floor 0 is unreachable from one reading. -/
theorem single_reading_score_range (v i t : ℚ) (c : CellType) :
    (get_safety_warnings v i t c).length ≤ 3 ∧
    25 ≤ safety_score (get_safety_warnings v i t c).length ∧
    (safety_score (get_safety_warnings v i t c).length = 25 ∨
      safety_score (get_safety_warnings v i t c).length = 50 ∨
      safety_score (get_safety_warnings v i t c).length = 75 ∨
      safety_score (get_safety_warnings v i t c).length = 100) := by
  have hv : (voltage_warnings v c).length ≤ 1 := by
    unfold voltage_warnings; split_ifs <;> simp
  have hi : (current_warnings i).length ≤ 1 := by
    unfold current_warnings; split_ifs <;> simp
  have ht : (temperature_warnings t).length ≤ 1 := by
    unfold temperature_warnings; split_ifs <;> simp
  have hlen : (get_safety_warnings v i t c).length ≤ 3 := by
    unfold get_safety_warnings
    simp only [List.length_append]
    omega
  refine ⟨hlen, ?_, ?_⟩ <;> interval_cases h : (get_safety_warnings v i t c).length <;> decide

/-- C5: the warning list is its voltage warnings, then its current
warnings, then its temperature warnings, each dimension contributing
at most one entry; overvoltage is CRITICAL and undervoltage WARNING
and the two never co-occur, with over beating under; overheating is
CRITICAL (only for `t > 45`) and low temperature WARNING (only for
`t < 0`) and the two never co-occur. -/
theorem safety_warnings_order_and_exclusivity (v i t : ℚ) (c : CellType) :
    get_safety_warnings v i t c =
        (get_safety_warnings v i t c).filter is_voltage_warning ++
          (get_safety_warnings v i t c).filter is_current_warning ++
            (get_safety_warnings v i t c).filter is_temperature_warning ∧
    ((get_safety_warnings v i t c).filter is_voltage_warning).length ≤ 1 ∧
    ((get_safety_warnings v i t c).filter is_current_warning).length ≤ 1 ∧
    ((get_safety_warnings v i t c).filter is_temperature_warning).length ≤ 1 ∧
    (∀ w ∈ get_safety_warnings v i t c,
      (is_overvoltage w → w.1 = Severity.CRITICAL) ∧
      (is_undervoltage w → w.1 = Severity.WARNING) ∧
      (is_overheating w → w.1 = Severity.CRITICAL ∧ 45 < t) ∧
      (is_low_temperature w → w.1 = Severity.WARNING ∧ t < 0)) ∧
    ¬((get_safety_warnings v i t c).any is_overvoltage = true ∧
      (get_safety_warnings v i t c).any is_undervoltage = true) ∧
    ¬((get_safety_warnings v i t c).any is_overheating = true ∧
      (get_safety_warnings v i t c).any is_low_temperature = true) ∧
    ((CELL_SPECS c).max < v →
      (get_safety_warnings v i t c).any is_overvoltage = true ∧
        (get_safety_warnings v i t c).any is_undervoltage = false) := by
  unfold get_safety_warnings voltage_warnings current_warnings temperature_warnings
  split_ifs <;>
    simp_all [is_voltage_warning, is_current_warning, is_temperature_warning,
      is_overvoltage, is_undervoltage, is_overheating, is_low_temperature]

/-- Witness for C5 at `v = 3.7`, `i = 0`, `t = 20`, chemistry LFP
(overvoltage present, undervoltage absent). -/
theorem safety_warnings_order_and_exclusivity_witness :
    (get_safety_warnings 3.7 0 20 CellType.LFP).any is_overvoltage = true ∧
      (get_safety_warnings 3.7 0 20 CellType.LFP).any is_undervoltage = false :=
  (safety_warnings_order_and_exclusivity 3.7 0 20 CellType.LFP).2.2.2.2.2.2.2
    (by norm_num [CELL_SPECS])

/-- C4 as stated is false: the source computes
`capacity = abs(voltage * current)` with the branch voltage BEFORE the
`max(0, voltage)` clamp.  With baseline voltage 0 (allowed by the
setup form), Discharging, and the in-range draw `(0.15, 0, 3)`, the
emitted voltage is clamped to 0 and the current is −2, yet the
capacity is `|−0.15 × −2| = 0.3 ≠ |0 × −2| = 0`. -/
theorem sample_capacity_counterexample :
    draws_in_range ChargingStatus.Discharging (15/100) 0 3 ∧
    (synthesize_sample ⟨"Cell_1", CellType.LFP, 0, 2, 25⟩
      ChargingStatus.Discharging (15/100) 0 3).current ≠ 0 ∧
    (synthesize_sample ⟨"Cell_1", CellType.LFP, 0, 2, 25⟩
        ChargingStatus.Discharging (15/100) 0 3).capacity ≠
      |(synthesize_sample ⟨"Cell_1", CellType.LFP, 0, 2, 25⟩
          ChargingStatus.Discharging (15/100) 0 3).voltage *
        (synthesize_sample ⟨"Cell_1", CellType.LFP, 0, 2, 25⟩
          ChargingStatus.Discharging (15/100) 0 3).current| := by
  refine ⟨by norm_num [draws_in_range], ?_, ?_⟩ <;>
    norm_num [synthesize_sample, raw_voltage, sample_current]

/-- C4 amended: the emitted capacity is 0 when the emitted current is
0, and otherwise equals `|v_raw × current|` where `v_raw` is the
perturbed voltage BEFORE the `max(0, ·)` clamp; whenever the
pre-clamp voltage is nonnegative (so the clamp is the identity) this
coincides with `|emitted voltage × emitted current|` as the original
claim states. -/
theorem sample_capacity_amended (cfg : CellConfig) (status : ChargingStatus)
    (u1 u2 u3 : ℚ) :
    ((synthesize_sample cfg status u1 u2 u3).current = 0 →
      (synthesize_sample cfg status u1 u2 u3).capacity = 0) ∧
    ((synthesize_sample cfg status u1 u2 u3).current ≠ 0 →
      (synthesize_sample cfg status u1 u2 u3).capacity =
        |raw_voltage cfg status u1 *
          (synthesize_sample cfg status u1 u2 u3).current|) ∧
    (0 ≤ raw_voltage cfg status u1 →
      (synthesize_sample cfg status u1 u2 u3).current ≠ 0 →
      (synthesize_sample cfg status u1 u2 u3).capacity =
        |(synthesize_sample cfg status u1 u2 u3).voltage *
          (synthesize_sample cfg status u1 u2 u3).current|) := by
  refine ⟨fun h => ?_, fun h => ?_, fun h0 h => ?_⟩
  · simp only [synthesize_sample] at h ⊢
    simp [h]
  · simp only [synthesize_sample] at h ⊢
    simp [h]
  · simp only [synthesize_sample] at h ⊢
    simp only [if_pos h]
    rw [max_eq_right h0]

/-- Witness for C4's amended claim at baseline `(3.2, 2, 25)` (LFP),
Charging, draw `(0.1, 0, 5)`. -/
theorem sample_capacity_amended_witness :
    (synthesize_sample ⟨"Cell_1", CellType.LFP, 3.2, 2, 25⟩
        ChargingStatus.Charging (1/10) 0 5).capacity =
      |(synthesize_sample ⟨"Cell_1", CellType.LFP, 3.2, 2, 25⟩
          ChargingStatus.Charging (1/10) 0 5).voltage *
        (synthesize_sample ⟨"Cell_1", CellType.LFP, 3.2, 2, 25⟩
          ChargingStatus.Charging (1/10) 0 5).current| :=
  (sample_capacity_amended ⟨"Cell_1", CellType.LFP, 3.2, 2, 25⟩
      ChargingStatus.Charging (1/10) 0 5).2.2
    (by norm_num [raw_voltage])
    (by norm_num [synthesize_sample, sample_current])

/-- C8: starting from an empty buffer, after any sequence of ticks
(each appending one sample per configured cell and then truncating)
the rolling buffer holds at most `60 × ncells` entries; and each
tick's result is a suffix of the extended buffer, i.e. eviction drops
the oldest entries first, FIFO over the whole buffer. -/
theorem rolling_buffer_bounded_fifo {α : Type} (ncells : ℕ)
    (batches : List (List α)) (buf new : List α) (h : 0 < ncells)
    (_hb : ∀ b ∈ batches, b.length = ncells) :
    (batches.foldl (tick_buffer ncells) []).length ≤ 60 * ncells ∧
    List.IsSuffix (tick_buffer ncells buf new) (buf ++ new) := by
  refine ⟨?_, tick_buffer_suffix ncells buf new⟩
  suffices h' : ∀ (bs : List (List α)) (init : List α),
      init.length ≤ 60 * ncells →
      (bs.foldl (tick_buffer ncells) init).length ≤ 60 * ncells by
    exact h' batches [] (by simp)
  intro bs
  induction bs with
  | nil => intro init hinit; simpa using hinit
  | cons b bs ih =>
      intro init hinit
      exact ih (tick_buffer ncells init b) (tick_buffer_length_le ncells h init b)

/-- Witness for C8 with one configured cell and two ticks. -/
theorem rolling_buffer_bounded_fifo_witness :
    (([[0], [1]] : List (List ℕ)).foldl (tick_buffer 1) []).length ≤ 60 * 1 ∧
    List.IsSuffix (tick_buffer 1 [5] [6]) ([5] ++ [6]) :=
  rolling_buffer_bounded_fifo 1 [[0], [1]] [5] [6] (by norm_num) (by decide)

end CellChargeDischarge
